import Mathlib

/-!
Shallow embedding of the hookfs interception layer (hookfs/fs.go,
hookfs/file.go, hookfs/hook.go).

Modelling conventions:
* `Status` is the numeric fuse status code (`fuse.OK = 0`); `GoError` is a
  Go `error` value modelled as `Option Nat` (`none` = nil, `some e` maps to
  status code `e` under `fuse.ToStatus`).
* A Go hook value is `Hook := Option HookImpl`; each optional interface
  (`HookOnGetAttr`, `HookOnRead`, ...) is an optional field, and the Go type
  assertion `h.hook.(HookOnX)` is the accessor `Hook.asX`.
* Every operation returns, besides its Go return values, a `List Event`
  trace recording which of the prehook, the delegate and the posthook were
  invoked, whether the length-mismatch warning fired, and whether the hook
  initializer ran.  `log.Fatal` (which terminates the process) is modelled
  by the `Outcome.fatal` constructor: no return value is produced.
* `fuse.ReadResult` is modelled as the byte list it denotes, so
  `lowerRR.Bytes` is the identity and its unreachable panic branch is not
  modelled.
-/

namespace Hookfs

/-- fuse.Status, numerically: 0 is fuse.OK, nonzero values are errno codes. -/

abbrev Status := Nat

/-- fuse.OK -/

def OK : Status := 0

/-- A Go `error` value: `none` is nil, `some e` is an error mapping to
status code `e` under `fuse.ToStatus`. -/

abbrev GoError := Option Nat

/-- fuse.ToStatus: nil maps to fuse.OK, a non-nil error to its status code. -/

def ToStatus : GoError → Status
  | none => OK
  | some e => e

/-- `HookContext` is hook-defined and never inspected by the engine; a
numeric token suffices for the model. -/

abbrev HookContext := Nat

/-- `*fuse.Attr` payload, kept opaque. -/

abbrev Attr := Nat

/-- `fuse.DirEntry`, kept opaque. -/

abbrev DirEntry := String

/-- Observable events of one operation: hook calls, the delegate call, the
read length-mismatch warning, and the hook initializer call. -/

inductive Event
  | preCall
  | delegateCall
  | postCall
  | warn
  | initCall
deriving DecidableEq, Repr

/-- Result of one request: a normal return value, or process termination
via `log.Fatal`. -/

inductive Outcome (α : Type)
  | normal (val : α)
  | fatal
deriving DecidableEq, Repr

/-! ### Hook interfaces (hook.go) -/

/-- HookOnGetAttr: PreGetAttr(path), PostGetAttr(realRetCode, prehookCtx). -/

structure HookOnGetAttr where
  PreGetAttr : String → Bool × HookContext × GoError
  PostGetAttr : Nat → HookContext → Bool × GoError

/-- HookOnChmod: PreChmod(path, perms), PostChmod(realRetCode, prehookCtx). -/

structure HookOnChmod where
  PreChmod : String → Nat → Bool × HookContext × GoError
  PostChmod : Nat → HookContext → Bool × GoError

/-- HookOnMkdir: PreMkdir(path, mode), PostMkdir(realRetCode, prehookCtx). -/

structure HookOnMkdir where
  PreMkdir : String → Nat → Bool × HookContext × GoError
  PostMkdir : Nat → HookContext → Bool × GoError

/-- HookOnRmdir: PreRmdir(path), PostRmdir(realRetCode, prehookCtx). -/

structure HookOnRmdir where
  PreRmdir : String → Bool × HookContext × GoError
  PostRmdir : Nat → HookContext → Bool × GoError

/-- HookOnUnlink: PreUnlink(name), PostUnlink(realRetCode, prehookCtx). -/

structure HookOnUnlink where
  PreUnlink : String → Bool × HookContext × GoError
  PostUnlink : Nat → HookContext → Bool × GoError

/-- HookOnGetXAttr: PreGetXAttr(name, attribute), PostGetXAttr(realRetCode, prehookCtx). -/

structure HookOnGetXAttr where
  PreGetXAttr : String → String → Bool × HookContext × GoError
  PostGetXAttr : Nat → HookContext → Bool × GoError

/-- HookOnListXAttr: PreListXAttr(name), PostListXAttr(realRetCode, prehookCtx). -/

structure HookOnListXAttr where
  PreListXAttr : String → Bool × HookContext × GoError
  PostListXAttr : Nat → HookContext → Bool × GoError

/-- HookOnOpen: PreOpen(path, flags), PostOpen(realRetCode, prehookCtx). -/

structure HookOnOpen where
  PreOpen : String → Nat → Bool × HookContext × GoError
  PostOpen : Nat → HookContext → Bool × GoError

/-- HookOnOpenDir: PreOpenDir(path), PostOpenDir(realRetCode, prehookCtx). -/

structure HookOnOpenDir where
  PreOpenDir : String → Bool × HookContext × GoError
  PostOpenDir : Nat → HookContext → Bool × GoError

/-- HookOnReadlink: PreReadlink(name), PostReadlink(realRetCode, prehookCtx). -/

structure HookOnReadlink where
  PreReadlink : String → Bool × HookContext × GoError
  PostReadlink : Nat → HookContext → Bool × GoError

/-- HookOnRead: PreRead(path, length, offset) returns (buf, hooked, ctx, err);
PostRead(realRetCode, realBuf, prehookCtx) returns (buf, hooked, err). -/

structure HookOnRead where
  PreRead : String → Int → Int → List Nat × Bool × HookContext × GoError
  PostRead : Nat → List Nat → HookContext → List Nat × Bool × GoError

/-- HookOnWrite: PreWrite(path, buf, offset), PostWrite(realRetCode, prehookCtx). -/

structure HookOnWrite where
  PreWrite : String → List Nat → Int → Bool × HookContext × GoError
  PostWrite : Nat → HookContext → Bool × GoError

/-- HookOnRelease: PreRelease(path) returns (hooked, ctx);
PostRelease(prehookCtx) returns hooked.  No error channel. -/

structure HookOnRelease where
  PreRelease : String → Bool × HookContext
  PostRelease : HookContext → Bool

/-- HookWithInit: Init() returns err.  The error the initializer would
return is the field's value. -/

structure HookWithInit where
  Init : GoError

/-- One hook value: each field is `some` exactly when the Go hook value
implements the corresponding interface. -/

structure HookImpl where
  onGetAttr : Option HookOnGetAttr := none
  onChmod : Option HookOnChmod := none
  onMkdir : Option HookOnMkdir := none
  onRmdir : Option HookOnRmdir := none
  onUnlink : Option HookOnUnlink := none
  onGetXAttr : Option HookOnGetXAttr := none
  onListXAttr : Option HookOnListXAttr := none
  onOpen : Option HookOnOpen := none
  onOpenDir : Option HookOnOpenDir := none
  onReadlink : Option HookOnReadlink := none
  onRead : Option HookOnRead := none
  onWrite : Option HookOnWrite := none
  onRelease : Option HookOnRelease := none
  onInit : Option HookWithInit := none

/-- `type Hook interface{}`: the engine stores a possibly-nil hook. -/

abbrev Hook := Option HookImpl

/-- Go type assertion `hook.(HookOnGetAttr)`. -/

def Hook.asGetAttr : Hook → Option HookOnGetAttr
  | none => none
  | some i => i.onGetAttr

/-- Go type assertion `hook.(HookOnChmod)`. -/

def Hook.asChmod : Hook → Option HookOnChmod
  | none => none
  | some i => i.onChmod

/-- Go type assertion `hook.(HookOnMkdir)`. -/

def Hook.asMkdir : Hook → Option HookOnMkdir
  | none => none
  | some i => i.onMkdir

/-- Go type assertion `hook.(HookOnRmdir)`. -/

def Hook.asRmdir : Hook → Option HookOnRmdir
  | none => none
  | some i => i.onRmdir

/-- Go type assertion `hook.(HookOnUnlink)`. -/

def Hook.asUnlink : Hook → Option HookOnUnlink
  | none => none
  | some i => i.onUnlink

/-- Go type assertion `hook.(HookOnGetXAttr)`. -/

def Hook.asGetXAttr : Hook → Option HookOnGetXAttr
  | none => none
  | some i => i.onGetXAttr

/-- Go type assertion `hook.(HookOnListXAttr)`. -/

def Hook.asListXAttr : Hook → Option HookOnListXAttr
  | none => none
  | some i => i.onListXAttr

/-- Go type assertion `hook.(HookOnOpen)`. -/

def Hook.asOpen : Hook → Option HookOnOpen
  | none => none
  | some i => i.onOpen

/-- Go type assertion `hook.(HookOnOpenDir)`. -/

def Hook.asOpenDir : Hook → Option HookOnOpenDir
  | none => none
  | some i => i.onOpenDir

/-- Go type assertion `hook.(HookOnReadlink)`. -/

def Hook.asReadlink : Hook → Option HookOnReadlink
  | none => none
  | some i => i.onReadlink

/-- Go type assertion `hook.(HookOnRead)`. -/

def Hook.asRead : Hook → Option HookOnRead
  | none => none
  | some i => i.onRead

/-- Go type assertion `hook.(HookOnWrite)`. -/

def Hook.asWrite : Hook → Option HookOnWrite
  | none => none
  | some i => i.onWrite

/-- Go type assertion `hook.(HookOnRelease)`. -/

def Hook.asRelease : Hook → Option HookOnRelease
  | none => none
  | some i => i.onRelease

/-- Go type assertion `hook.(HookWithInit)`. -/

def Hook.asInit : Hook → Option HookWithInit
  | none => none
  | some i => i.onInit

/-! ### Delegate (pathfs loopback filesystem and nodefs file) -/

/-- The delegate `nodefs.File` (only the handle operations the model
needs): Read yields the bytes a `fuse.ReadResult` denotes plus a status,
Write yields the written count plus a status, Release is void. -/

structure DelegateFile where
  Read : List Nat → Int → List Nat × Status
  Write : List Nat → Int → Nat × Status

/-- The delegate `pathfs.FileSystem` (the path operations the model
needs), as pure result tables. -/

structure FileSystem where
  GetAttr : String → Option Attr × Status
  Chmod : String → Nat → Status
  Mkdir : String → Nat → Status
  Rmdir : String → Status
  Unlink : String → Status
  GetXAttr : String → String → Option (List Nat) × Status
  ListXAttr : String → Option (List String) × Status
  Open : String → Nat → DelegateFile × Status
  OpenDir : String → Option (List DirEntry) × Status
  Readlink : String → String × Status

/-- HookFs (fs.go): the filesystem-scope wrapper. -/

structure HookFs where
  Original : String
  Mountpoint : String
  FsName : String
  fs : FileSystem
  hook : Hook

/-- hookFile (file.go): the handle-scope wrapper. -/

structure hookFile where
  file : DelegateFile
  name : String
  hook : Hook

/-- newHookFile (file.go): captures the delegate file, the path and the
hook reference by value; the Go version's error result is always nil. -/

def newHookFile (file : DelegateFile) (name : String) (hook : Hook) : hookFile :=
  { file := file, name := name, hook := hook }

/-! ### Filesystem-scope operations (fs.go) -/

/-- HookFs.GetAttr (fs.go): prehooked returns (nil, ToStatus prehookErr);
posthooked returns the delegate attr with ToStatus posthookErr; otherwise
the delegate result unchanged. -/

def HookFs.GetAttr (h : HookFs) (name : String) :
    Outcome (Option Attr × Status) × List Event :=
  match Hook.asGetAttr h.hook with
  | none => (.normal (h.fs.GetAttr name), [.delegateCall])
  | some hook =>
      let pre := hook.PreGetAttr name
      if pre.1 then
        (.normal (none, ToStatus pre.2.2), [.preCall])
      else
        let lower := h.fs.GetAttr name
        let post := hook.PostGetAttr lower.2 pre.2.1
        if post.1 then
          (.normal (lower.1, ToStatus post.2), [.preCall, .delegateCall, .postCall])
        else
          (.normal lower, [.preCall, .delegateCall, .postCall])

/-- HookFs.Chmod (fs.go): status-only canonical interception. -/

def HookFs.Chmod (h : HookFs) (name : String) (mode : Nat) :
    Outcome Status × List Event :=
  match Hook.asChmod h.hook with
  | none => (.normal (h.fs.Chmod name mode), [.delegateCall])
  | some hook =>
      let pre := hook.PreChmod name mode
      if pre.1 then
        (.normal (ToStatus pre.2.2), [.preCall])
      else
        let lowerCode := h.fs.Chmod name mode
        let post := hook.PostChmod lowerCode pre.2.1
        if post.1 then
          (.normal (ToStatus post.2), [.preCall, .delegateCall, .postCall])
        else
          (.normal lowerCode, [.preCall, .delegateCall, .postCall])

/-- HookFs.Mkdir (fs.go): prehooked with a nil error hits log.Fatal
(process termination); prehooked with a non-nil error returns its status. -/

def HookFs.Mkdir (h : HookFs) (name : String) (mode : Nat) :
    Outcome Status × List Event :=
  match Hook.asMkdir h.hook with
  | none => (.normal (h.fs.Mkdir name mode), [.delegateCall])
  | some hook =>
      let pre := hook.PreMkdir name mode
      if pre.1 then
        if pre.2.2 = none then (.fatal, [.preCall])
        else (.normal (ToStatus pre.2.2), [.preCall])
      else
        let lowerCode := h.fs.Mkdir name mode
        let post := hook.PostMkdir lowerCode pre.2.1
        if post.1 then
          (.normal (ToStatus post.2), [.preCall, .delegateCall, .postCall])
        else
          (.normal lowerCode, [.preCall, .delegateCall, .postCall])

/-- HookFs.Rmdir (fs.go): same fatal contract check as Mkdir. -/

def HookFs.Rmdir (h : HookFs) (name : String) :
    Outcome Status × List Event :=
  match Hook.asRmdir h.hook with
  | none => (.normal (h.fs.Rmdir name), [.delegateCall])
  | some hook =>
      let pre := hook.PreRmdir name
      if pre.1 then
        if pre.2.2 = none then (.fatal, [.preCall])
        else (.normal (ToStatus pre.2.2), [.preCall])
      else
        let lowerCode := h.fs.Rmdir name
        let post := hook.PostRmdir lowerCode pre.2.1
        if post.1 then
          (.normal (ToStatus post.2), [.preCall, .delegateCall, .postCall])
        else
          (.normal lowerCode, [.preCall, .delegateCall, .postCall])

/-- HookFs.Unlink (fs.go): status-only canonical interception, no fatal
branch. -/

def HookFs.Unlink (h : HookFs) (name : String) :
    Outcome Status × List Event :=
  match Hook.asUnlink h.hook with
  | none => (.normal (h.fs.Unlink name), [.delegateCall])
  | some hook =>
      let pre := hook.PreUnlink name
      if pre.1 then
        (.normal (ToStatus pre.2.2), [.preCall])
      else
        let lowerCode := h.fs.Unlink name
        let post := hook.PostUnlink lowerCode pre.2.1
        if post.1 then
          (.normal (ToStatus post.2), [.preCall, .delegateCall, .postCall])
        else
          (.normal lowerCode, [.preCall, .delegateCall, .postCall])

/-- HookFs.GetXAttr (fs.go): prehooked returns (nil, ToStatus prehookErr);
posthooked returns the delegate bytes with ToStatus posthookErr. -/

def HookFs.GetXAttr (h : HookFs) (name : String) (attr : String) :
    Outcome (Option (List Nat) × Status) × List Event :=
  match Hook.asGetXAttr h.hook with
  | none => (.normal (h.fs.GetXAttr name attr), [.delegateCall])
  | some hook =>
      let pre := hook.PreGetXAttr name attr
      if pre.1 then
        (.normal (none, ToStatus pre.2.2), [.preCall])
      else
        let lower := h.fs.GetXAttr name attr
        let post := hook.PostGetXAttr lower.2 pre.2.1
        if post.1 then
          (.normal (lower.1, ToStatus post.2), [.preCall, .delegateCall, .postCall])
        else
          (.normal lower, [.preCall, .delegateCall, .postCall])

/-- HookFs.ListXAttr (fs.go): prehooked returns (nil, ToStatus prehookErr). -/

def HookFs.ListXAttr (h : HookFs) (name : String) :
    Outcome (Option (List String) × Status) × List Event :=
  match Hook.asListXAttr h.hook with
  | none => (.normal (h.fs.ListXAttr name), [.delegateCall])
  | some hook =>
      let pre := hook.PreListXAttr name
      if pre.1 then
        (.normal (none, ToStatus pre.2.2), [.preCall])
      else
        let lower := h.fs.ListXAttr name
        let post := hook.PostListXAttr lower.2 pre.2.1
        if post.1 then
          (.normal (lower.1, ToStatus post.2), [.preCall, .delegateCall, .postCall])
        else
          (.normal lower, [.preCall, .delegateCall, .postCall])

/-- HookFs.Open (fs.go): fatal contract check as in Mkdir; on the
non-short-circuit path the delegate file is wrapped by newHookFile with the
filesystem's current hook regardless of the posthook decision. -/

def HookFs.Open (h : HookFs) (name : String) (flags : Nat) :
    Outcome (Option hookFile × Status) × List Event :=
  match Hook.asOpen h.hook with
  | none =>
      let lower := h.fs.Open name flags
      (.normal (some (newHookFile lower.1 name h.hook), lower.2), [.delegateCall])
  | some hook =>
      let pre := hook.PreOpen name flags
      if pre.1 then
        if pre.2.2 = none then (.fatal, [.preCall])
        else (.normal (none, ToStatus pre.2.2), [.preCall])
      else
        let lower := h.fs.Open name flags
        let hFile := newHookFile lower.1 name h.hook
        let post := hook.PostOpen lower.2 pre.2.1
        if post.1 then
          (.normal (some hFile, ToStatus post.2), [.preCall, .delegateCall, .postCall])
        else
          (.normal (some hFile, lower.2), [.preCall, .delegateCall, .postCall])

/-- HookFs.OpenDir (fs.go): fatal contract check as in Mkdir; prehooked
with a non-nil error returns (nil, ToStatus prehookErr). -/

def HookFs.OpenDir (h : HookFs) (name : String) :
    Outcome (Option (List DirEntry) × Status) × List Event :=
  match Hook.asOpenDir h.hook with
  | none => (.normal (h.fs.OpenDir name), [.delegateCall])
  | some hook =>
      let pre := hook.PreOpenDir name
      if pre.1 then
        if pre.2.2 = none then (.fatal, [.preCall])
        else (.normal (none, ToStatus pre.2.2), [.preCall])
      else
        let lower := h.fs.OpenDir name
        let post := hook.PostOpenDir lower.2 pre.2.1
        if post.1 then
          (.normal (lower.1, ToStatus post.2), [.preCall, .delegateCall, .postCall])
        else
          (.normal lower, [.preCall, .delegateCall, .postCall])

/-- HookFs.Readlink (fs.go): prehooked returns ("", ToStatus prehookErr). -/

def HookFs.Readlink (h : HookFs) (name : String) :
    Outcome (String × Status) × List Event :=
  match Hook.asReadlink h.hook with
  | none => (.normal (h.fs.Readlink name), [.delegateCall])
  | some hook =>
      let pre := hook.PreReadlink name
      if pre.1 then
        (.normal ("", ToStatus pre.2.2), [.preCall])
      else
        let lower := h.fs.Readlink name
        let post := hook.PostReadlink lower.2 pre.2.1
        if post.1 then
          (.normal (lower.1, ToStatus post.2), [.preCall, .delegateCall, .postCall])
        else
          (.normal lower, [.preCall, .delegateCall, .postCall])

/-- HookFs.OnMount (fs.go): mounts the delegate, then runs the hook
initializer if implemented; a failing initializer disables the hook
(`h.hook = nil`) for the rest of the mount, and the mount never fails. -/

def HookFs.OnMount (h : HookFs) : HookFs × List Event :=
  match Hook.asInit h.hook with
  | none => (h, [.delegateCall])
  | some hi =>
      if hi.Init = none then (h, [.delegateCall, .initCall])
      else ({ h with hook := none }, [.delegateCall, .initCall])

/-! ### Handle-scope operations (file.go) -/

/-- hookFile.Read (file.go): the prehook may supply a substitute buffer on
short-circuit; the posthook may replace the delegate's bytes, with a
non-fatal warning when the replacement length differs. -/

def hookFile.Read (h : hookFile) (dest : List Nat) (off : Int) :
    (List Nat × Status) × List Event :=
  match Hook.asRead h.hook with
  | none => ((h.file.Read dest off), [.delegateCall])
  | some hook =>
      let pre := hook.PreRead h.name ((dest.length : Int)) off
      if pre.2.1 then
        ((pre.1, ToStatus pre.2.2.2), [.preCall])
      else
        let lower := h.file.Read dest off
        let lowerRRBuf := lower.1
        let post := hook.PostRead lower.2 lowerRRBuf pre.2.2.1
        if post.2.1 then
          let warnEvents : List Event :=
            if post.1.length ≠ lowerRRBuf.length then [.warn] else []
          ((post.1, ToStatus post.2.2),
            [.preCall, .delegateCall, .postCall] ++ warnEvents)
        else
          (lower, [.preCall, .delegateCall, .postCall])

/-- hookFile.Write (file.go): prehooked returns (0, ToStatus prehookErr);
posthooked returns (0, ToStatus posthookErr); otherwise the delegate's
written count and status. -/

def hookFile.Write (h : hookFile) (data : List Nat) (off : Int) :
    (Nat × Status) × List Event :=
  match Hook.asWrite h.hook with
  | none => ((h.file.Write data off), [.delegateCall])
  | some hook =>
      let pre := hook.PreWrite h.name data off
      if pre.1 then
        ((0, ToStatus pre.2.2), [.preCall])
      else
        let lower := h.file.Write data off
        let post := hook.PostWrite lower.2 pre.2.1
        if post.1 then
          ((0, ToStatus post.2), [.preCall, .delegateCall, .postCall])
        else
          (lower, [.preCall, .delegateCall, .postCall])

/-- hookFile.Release (file.go): the delegate Release is called on every
path; the flags returned by PreRelease and PostRelease are only logged. -/

def hookFile.Release (h : hookFile) : List Event :=
  match Hook.asRelease h.hook with
  | none => [.delegateCall]
  | some hook =>
      let pre := hook.PreRelease h.name
      let posthooked := hook.PostRelease pre.2
      let _ := posthooked
      [.preCall, .delegateCall, .postCall]

/-! ### Concrete delegates and hooks used by the witnesses -/

/-- A concrete delegate file: reads yield three bytes, writes report the
full length written. -/

def sampleFile : DelegateFile :=
  { Read := fun _ _ => ([10, 20, 30], OK)
  , Write := fun data _ => (data.length, OK) }

/-- A concrete delegate filesystem with distinctive result values. -/

def sampleFS : FileSystem :=
  { GetAttr := fun _ => (some 7, 2)
  , Chmod := fun _ _ => 13
  , Mkdir := fun _ _ => OK
  , Rmdir := fun _ => OK
  , Unlink := fun _ => 5
  , GetXAttr := fun _ _ => (some [1, 2], OK)
  , ListXAttr := fun _ => (some ["u"], OK)
  , Open := fun _ _ => (sampleFile, OK)
  , OpenDir := fun _ => (some ["d"], OK)
  , Readlink := fun _ => ("t", OK) }

/-- A hook implementing every modelled pair whose prehooks all
short-circuit with error 13 and whose posthooks decline. -/

def preErrHook : HookImpl :=
  { onGetAttr := some ⟨fun _ => (true, 3, some 13), fun _ _ => (false, none)⟩
  , onChmod := some ⟨fun _ _ => (true, 3, some 13), fun _ _ => (false, none)⟩
  , onMkdir := some ⟨fun _ _ => (true, 3, some 13), fun _ _ => (false, none)⟩
  , onRmdir := some ⟨fun _ => (true, 3, some 13), fun _ _ => (false, none)⟩
  , onUnlink := some ⟨fun _ => (true, 3, some 13), fun _ _ => (false, none)⟩
  , onGetXAttr := some ⟨fun _ _ => (true, 3, some 13), fun _ _ => (false, none)⟩
  , onListXAttr := some ⟨fun _ => (true, 3, some 13), fun _ _ => (false, none)⟩
  , onOpen := some ⟨fun _ _ => (true, 3, some 13), fun _ _ => (false, none)⟩
  , onOpenDir := some ⟨fun _ => (true, 3, some 13), fun _ _ => (false, none)⟩
  , onReadlink := some ⟨fun _ => (true, 3, some 13), fun _ _ => (false, none)⟩
  , onRead := some ⟨fun _ _ _ => ([9, 9], true, 3, some 13), fun _ _ _ => ([], false, none)⟩
  , onWrite := some ⟨fun _ _ _ => (true, 3, some 13), fun _ _ => (false, none)⟩
  , onRelease := some ⟨fun _ => (true, 3), fun _ => true⟩
  , onInit := none }

/-- A mount of `sampleFS` under `preErrHook`. -/

def hfsPreErr : HookFs :=
  { Original := "orig", Mountpoint := "mnt", FsName := "hookfs"
  , fs := sampleFS, hook := some preErrHook }

/-- A handle-scope wrapper over `sampleFile` with `preErrHook`. -/

def hfilePreErr : hookFile := newHookFile sampleFile "f" (some preErrHook)

/-- A hook implementing only the four fatal-contract pairs, with prehooks
that short-circuit carrying a nil error. -/

def preNilHook : HookImpl :=
  { onMkdir := some ⟨fun _ _ => (true, 3, none), fun _ _ => (false, none)⟩
  , onRmdir := some ⟨fun _ => (true, 3, none), fun _ _ => (false, none)⟩
  , onOpen := some ⟨fun _ _ => (true, 3, none), fun _ _ => (false, none)⟩
  , onOpenDir := some ⟨fun _ => (true, 3, none), fun _ _ => (false, none)⟩ }

/-- A mount of `sampleFS` under `preNilHook`. -/

def hfsPreNil : HookFs :=
  { Original := "orig", Mountpoint := "mnt", FsName := "hookfs"
  , fs := sampleFS, hook := some preNilHook }

/-- A mount of `sampleFS` with no hook installed at all. -/

def hfsNoHook : HookFs :=
  { Original := "orig", Mountpoint := "mnt", FsName := "hookfs"
  , fs := sampleFS, hook := none }

/-- A mount of `sampleFS` with a hook value implementing no pair. -/

def hfsEmptyHook : HookFs :=
  { Original := "orig", Mountpoint := "mnt", FsName := "hookfs"
  , fs := sampleFS, hook := some {} }

/-- A handle-scope wrapper over `sampleFile` with no hook. -/

def hfileNoHook : hookFile := newHookFile sampleFile "f" none

/-- A hook whose initializer fails with error 9, on top of the
short-circuiting `preErrHook` pairs. -/

def failInitHook : HookImpl := { preErrHook with onInit := some ⟨some 9⟩ }

/-- A mount of `sampleFS` under `failInitHook`. -/

def hfsFailInit : HookFs :=
  { Original := "orig", Mountpoint := "mnt", FsName := "hookfs"
  , fs := sampleFS, hook := some failInitHook }

/-- A hook whose PreOpen declines, with a failing initializer, so that a
handle can be opened and the filesystem-level hook then disabled. -/

def snapshotHook : HookImpl :=
  { onOpen := some ⟨fun _ _ => (false, 0, none), fun _ _ => (false, none)⟩
  , onInit := some ⟨some 9⟩ }

/-- A mount of `sampleFS` under `snapshotHook`. -/

def hfsSnapshot : HookFs :=
  { Original := "orig", Mountpoint := "mnt", FsName := "hookfs"
  , fs := sampleFS, hook := some snapshotHook }

/-- A hook whose PostRead replaces the three delegate bytes by the single
byte 1 with error 4. -/

def mismatchReadHook : HookImpl :=
  { onRead := some ⟨fun _ _ _ => ([], false, 0, none),
                    fun _ _ _ => ([1], true, some 4)⟩ }

/-- A handle-scope wrapper over `sampleFile` with `mismatchReadHook`. -/

def hfileMismatch : hookFile := newHookFile sampleFile "f" (some mismatchReadHook)

/-- Two mounts sharing one replacing posthook but whose delegates report
different attrs: used to show the delegate result is not discarded. -/

def postReplaceGetAttrHook : HookImpl :=
  { onGetAttr := some ⟨fun _ => (false, 0, none), fun _ _ => (true, none)⟩ }

/-- `sampleFS` except that GetAttr reports attr 8 (instead of 7). -/

def fsAttrEight : FileSystem := { sampleFS with GetAttr := fun _ => (some 8, 2) }

/-- A mount of `sampleFS` (delegate attr 7) under `postReplaceGetAttrHook`. -/

def hfsAttrSeven : HookFs :=
  { Original := "orig", Mountpoint := "mnt", FsName := "hookfs"
  , fs := sampleFS, hook := some postReplaceGetAttrHook }

/-- A mount of `fsAttrEight` (delegate attr 8) under the same hook. -/

def hfsAttrEight : HookFs :=
  { Original := "orig", Mountpoint := "mnt", FsName := "hookfs"
  , fs := fsAttrEight, hook := some postReplaceGetAttrHook }

/-- A hook whose prehooks decline and whose posthooks replace with
error 21 (PostRead supplying the byte 5). -/

def postErrHook : HookImpl :=
  { onGetAttr := some ⟨fun _ => (false, 0, none), fun _ _ => (true, some 21)⟩
  , onChmod := some ⟨fun _ _ => (false, 0, none), fun _ _ => (true, some 21)⟩
  , onRead := some ⟨fun _ _ _ => ([], false, 0, none),
                    fun _ _ _ => ([5], true, some 21)⟩
  , onWrite := some ⟨fun _ _ _ => (false, 0, none), fun _ _ => (true, some 21)⟩ }

/-- A mount of `sampleFS` under `postErrHook`. -/

def hfsPostErr : HookFs :=
  { Original := "orig", Mountpoint := "mnt", FsName := "hookfs"
  , fs := sampleFS, hook := some postErrHook }

/-- A handle-scope wrapper over `sampleFile` with `postErrHook`. -/

def hfilePostErr : hookFile := newHookFile sampleFile "f" (some postErrHook)

/-! ### Claim theorems -/

/-- C10: for GetAttr, GetXAttr, ListXAttr and Readlink, a short-circuiting
prehook returns the empty result (nil attr, nil byte slice, nil list, empty
string) with the status derived from the prehook error, and a nil prehook
error yields status OK. -/

theorem C10_pre_short_circuit_empty_result :
    (∀ (h : HookFs) (name : String) (ga : HookOnGetAttr),
      Hook.asGetAttr h.hook = some ga → (ga.PreGetAttr name).1 = true →
      HookFs.GetAttr h name =
        (.normal (none, ToStatus (ga.PreGetAttr name).2.2), [.preCall])) ∧
    (∀ (h : HookFs) (name attr : String) (gx : HookOnGetXAttr),
      Hook.asGetXAttr h.hook = some gx → (gx.PreGetXAttr name attr).1 = true →
      HookFs.GetXAttr h name attr =
        (.normal (none, ToStatus (gx.PreGetXAttr name attr).2.2), [.preCall])) ∧
    (∀ (h : HookFs) (name : String) (lx : HookOnListXAttr),
      Hook.asListXAttr h.hook = some lx → (lx.PreListXAttr name).1 = true →
      HookFs.ListXAttr h name =
        (.normal (none, ToStatus (lx.PreListXAttr name).2.2), [.preCall])) ∧
    (∀ (h : HookFs) (name : String) (rl : HookOnReadlink),
      Hook.asReadlink h.hook = some rl → (rl.PreReadlink name).1 = true →
      HookFs.Readlink h name =
        (.normal ("", ToStatus (rl.PreReadlink name).2.2), [.preCall])) ∧
    ToStatus none = OK := by
  refine ⟨?_, ?_, ?_, ?_, rfl⟩
  · intro h name ga hga hpre
    unfold HookFs.GetAttr
    rw [hga]
    simp [hpre]
  · intro h name attr gx hgx hpre
    unfold HookFs.GetXAttr
    rw [hgx]
    simp [hpre]
  · intro h name lx hlx hpre
    unfold HookFs.ListXAttr
    rw [hlx]
    simp [hpre]
  · intro h name rl hrl hpre
    unfold HookFs.Readlink
    rw [hrl]
    simp [hpre]

/-- C10 witness: the four prehooks of `preErrHook` short-circuit with
error 13 on `sampleFS`, yielding the empty results with status 13. -/

theorem C10_witness :
    HookFs.GetAttr hfsPreErr "x" = (.normal (none, 13), [.preCall]) ∧
    HookFs.GetXAttr hfsPreErr "x" "a" = (.normal (none, 13), [.preCall]) ∧
    HookFs.ListXAttr hfsPreErr "x" = (.normal (none, 13), [.preCall]) ∧
    HookFs.Readlink hfsPreErr "x" = (.normal ("", 13), [.preCall]) :=
  ⟨C10_pre_short_circuit_empty_result.1 hfsPreErr "x" _ rfl rfl,
   C10_pre_short_circuit_empty_result.2.1 hfsPreErr "x" "a" _ rfl rfl,
   C10_pre_short_circuit_empty_result.2.2.1 hfsPreErr "x" _ rfl rfl,
   C10_pre_short_circuit_empty_result.2.2.2.1 hfsPreErr "x" _ rfl rfl⟩

/-- C7: a short-circuiting PreWrite always yields a written count of zero,
whatever the data buffer, with the status derived from the prehook error. -/

theorem C7_write_short_circuit_zero_count
    (h : hookFile) (data : List Nat) (off : Int) (wh : HookOnWrite)
    (hw : Hook.asWrite h.hook = some wh)
    (hpre : (wh.PreWrite h.name data off).1 = true) :
    hookFile.Write h data off =
      ((0, ToStatus (wh.PreWrite h.name data off).2.2), [.preCall]) := by
  unfold hookFile.Write
  rw [hw]
  simp [hpre]

/-- C7 witness: writing a five-byte buffer through `preErrHook` returns
count 0 and status 13 even though the delegate would report 5. -/

theorem C7_witness :
    hookFile.Write hfilePreErr [1, 2, 3, 4, 5] 0 = ((0, 13), [.preCall]) :=
  C7_write_short_circuit_zero_count hfilePreErr [1, 2, 3, 4, 5] 0 _ rfl rfl

/-- C1: when the prehook short-circuits (hooked = true), the delegate is
not invoked and the posthook is not invoked (trace is exactly [.preCall]),
and the call returns the prehook's result with the status derived from the
prehook's error.  For the four fatal-contract operations (mkdir, rmdir,
open, opendir) the delegate and the posthook are not invoked even on the
fatal path, and the immediate return holds whenever the prehook error is
non-nil (the nil case is the fatal path of C2). -/

theorem C1_short_circuit_totality :
    (∀ (h : HookFs) (name : String) (ga : HookOnGetAttr),
      Hook.asGetAttr h.hook = some ga → (ga.PreGetAttr name).1 = true →
      HookFs.GetAttr h name =
        (.normal (none, ToStatus (ga.PreGetAttr name).2.2), [.preCall])) ∧
    (∀ (h : HookFs) (name : String) (mode : Nat) (ch : HookOnChmod),
      Hook.asChmod h.hook = some ch → (ch.PreChmod name mode).1 = true →
      HookFs.Chmod h name mode =
        (.normal (ToStatus (ch.PreChmod name mode).2.2), [.preCall])) ∧
    (∀ (h : HookFs) (name : String) (ul : HookOnUnlink),
      Hook.asUnlink h.hook = some ul → (ul.PreUnlink name).1 = true →
      HookFs.Unlink h name =
        (.normal (ToStatus (ul.PreUnlink name).2.2), [.preCall])) ∧
    (∀ (h : HookFs) (name attr : String) (gx : HookOnGetXAttr),
      Hook.asGetXAttr h.hook = some gx → (gx.PreGetXAttr name attr).1 = true →
      HookFs.GetXAttr h name attr =
        (.normal (none, ToStatus (gx.PreGetXAttr name attr).2.2), [.preCall])) ∧
    (∀ (h : HookFs) (name : String) (lx : HookOnListXAttr),
      Hook.asListXAttr h.hook = some lx → (lx.PreListXAttr name).1 = true →
      HookFs.ListXAttr h name =
        (.normal (none, ToStatus (lx.PreListXAttr name).2.2), [.preCall])) ∧
    (∀ (h : HookFs) (name : String) (rl : HookOnReadlink),
      Hook.asReadlink h.hook = some rl → (rl.PreReadlink name).1 = true →
      HookFs.Readlink h name =
        (.normal ("", ToStatus (rl.PreReadlink name).2.2), [.preCall])) ∧
    (∀ (h : hookFile) (dest : List Nat) (off : Int) (rh : HookOnRead),
      Hook.asRead h.hook = some rh →
      (rh.PreRead h.name ((dest.length : Int)) off).2.1 = true →
      hookFile.Read h dest off =
        (((rh.PreRead h.name ((dest.length : Int)) off).1,
          ToStatus (rh.PreRead h.name ((dest.length : Int)) off).2.2.2),
         [.preCall])) ∧
    (∀ (h : hookFile) (data : List Nat) (off : Int) (wh : HookOnWrite),
      Hook.asWrite h.hook = some wh → (wh.PreWrite h.name data off).1 = true →
      hookFile.Write h data off =
        ((0, ToStatus (wh.PreWrite h.name data off).2.2), [.preCall])) ∧
    (∀ (h : HookFs) (name : String) (mode : Nat) (mk : HookOnMkdir),
      Hook.asMkdir h.hook = some mk → (mk.PreMkdir name mode).1 = true →
      (HookFs.Mkdir h name mode).2 = [.preCall] ∧
      ((mk.PreMkdir name mode).2.2 ≠ none →
        HookFs.Mkdir h name mode =
          (.normal (ToStatus (mk.PreMkdir name mode).2.2), [.preCall]))) ∧
    (∀ (h : HookFs) (name : String) (rd : HookOnRmdir),
      Hook.asRmdir h.hook = some rd → (rd.PreRmdir name).1 = true →
      (HookFs.Rmdir h name).2 = [.preCall] ∧
      ((rd.PreRmdir name).2.2 ≠ none →
        HookFs.Rmdir h name =
          (.normal (ToStatus (rd.PreRmdir name).2.2), [.preCall]))) ∧
    (∀ (h : HookFs) (name : String) (flags : Nat) (op : HookOnOpen),
      Hook.asOpen h.hook = some op → (op.PreOpen name flags).1 = true →
      (HookFs.Open h name flags).2 = [.preCall] ∧
      ((op.PreOpen name flags).2.2 ≠ none →
        HookFs.Open h name flags =
          (.normal (none, ToStatus (op.PreOpen name flags).2.2), [.preCall]))) ∧
    (∀ (h : HookFs) (name : String) (od : HookOnOpenDir),
      Hook.asOpenDir h.hook = some od → (od.PreOpenDir name).1 = true →
      (HookFs.OpenDir h name).2 = [.preCall] ∧
      ((od.PreOpenDir name).2.2 ≠ none →
        HookFs.OpenDir h name =
          (.normal (none, ToStatus (od.PreOpenDir name).2.2), [.preCall]))) := by
  refine ⟨?_, ?_, ?_, ?_, ?_, ?_, ?_, ?_, ?_, ?_, ?_, ?_⟩
  · intro h name ga hga hpre
    unfold HookFs.GetAttr
    rw [hga]
    simp [hpre]
  · intro h name mode ch hch hpre
    unfold HookFs.Chmod
    rw [hch]
    simp [hpre]
  · intro h name ul hul hpre
    unfold HookFs.Unlink
    rw [hul]
    simp [hpre]
  · intro h name attr gx hgx hpre
    unfold HookFs.GetXAttr
    rw [hgx]
    simp [hpre]
  · intro h name lx hlx hpre
    unfold HookFs.ListXAttr
    rw [hlx]
    simp [hpre]
  · intro h name rl hrl hpre
    unfold HookFs.Readlink
    rw [hrl]
    simp [hpre]
  · intro h dest off rh hrh hpre
    unfold hookFile.Read
    rw [hrh]
    simp [hpre]
  · intro h data off wh hwh hpre
    unfold hookFile.Write
    rw [hwh]
    simp [hpre]
  · intro h name mode mk hmk hpre
    unfold HookFs.Mkdir
    rw [hmk]
    constructor
    · by_cases hn : (mk.PreMkdir name mode).2.2 = none <;> simp [hpre, hn]
    · intro hne
      simp [hpre, hne]
  · intro h name rd hrd hpre
    unfold HookFs.Rmdir
    rw [hrd]
    constructor
    · by_cases hn : (rd.PreRmdir name).2.2 = none <;> simp [hpre, hn]
    · intro hne
      simp [hpre, hne]
  · intro h name flags op hop hpre
    unfold HookFs.Open
    rw [hop]
    constructor
    · by_cases hn : (op.PreOpen name flags).2.2 = none <;> simp [hpre, hn]
    · intro hne
      simp [hpre, hne]
  · intro h name od hod hpre
    unfold HookFs.OpenDir
    rw [hod]
    constructor
    · by_cases hn : (od.PreOpenDir name).2.2 = none <;> simp [hpre, hn]
    · intro hne
      simp [hpre, hne]

/-- C1 witness: every prehook of `preErrHook` short-circuits with error 13
on `sampleFS`, so every operation returns immediately with status 13 and a
trace containing only the prehook call. -/

theorem C1_witness :
    HookFs.GetAttr hfsPreErr "x" = (.normal (none, 13), [.preCall]) ∧
    HookFs.Chmod hfsPreErr "x" 7 = (.normal 13, [.preCall]) ∧
    HookFs.Unlink hfsPreErr "x" = (.normal 13, [.preCall]) ∧
    HookFs.GetXAttr hfsPreErr "x" "a" = (.normal (none, 13), [.preCall]) ∧
    HookFs.ListXAttr hfsPreErr "x" = (.normal (none, 13), [.preCall]) ∧
    HookFs.Readlink hfsPreErr "x" = (.normal ("", 13), [.preCall]) ∧
    hookFile.Read hfilePreErr [0, 0, 0] 0 = (([9, 9], 13), [.preCall]) ∧
    hookFile.Write hfilePreErr [1, 2, 3] 0 = ((0, 13), [.preCall]) ∧
    HookFs.Mkdir hfsPreErr "x" 7 = (.normal 13, [.preCall]) ∧
    HookFs.Rmdir hfsPreErr "x" = (.normal 13, [.preCall]) ∧
    HookFs.Open hfsPreErr "x" 7 = (.normal (none, 13), [.preCall]) ∧
    HookFs.OpenDir hfsPreErr "x" = (.normal (none, 13), [.preCall]) :=
  ⟨C1_short_circuit_totality.1 hfsPreErr "x" _ rfl rfl,
   C1_short_circuit_totality.2.1 hfsPreErr "x" 7 _ rfl rfl,
   C1_short_circuit_totality.2.2.1 hfsPreErr "x" _ rfl rfl,
   C1_short_circuit_totality.2.2.2.1 hfsPreErr "x" "a" _ rfl rfl,
   C1_short_circuit_totality.2.2.2.2.1 hfsPreErr "x" _ rfl rfl,
   C1_short_circuit_totality.2.2.2.2.2.1 hfsPreErr "x" _ rfl rfl,
   C1_short_circuit_totality.2.2.2.2.2.2.1 hfilePreErr [0, 0, 0] 0 _ rfl rfl,
   C1_short_circuit_totality.2.2.2.2.2.2.2.1 hfilePreErr [1, 2, 3] 0 _ rfl rfl,
   (C1_short_circuit_totality.2.2.2.2.2.2.2.2.1 hfsPreErr "x" 7 _ rfl rfl).2
     (by decide),
   (C1_short_circuit_totality.2.2.2.2.2.2.2.2.2.1 hfsPreErr "x" _ rfl rfl).2
     (by decide),
   (C1_short_circuit_totality.2.2.2.2.2.2.2.2.2.2.1 hfsPreErr "x" 7 _ rfl rfl).2
     (by decide),
   (C1_short_circuit_totality.2.2.2.2.2.2.2.2.2.2.2 hfsPreErr "x" _ rfl rfl).2
     (by decide)⟩

/-- C2: for mkdir, rmdir, open and opendir, a prehook short-circuit with a
nil error takes the process-level fatal path, while a non-nil error returns
its status normally; no other modelled filesystem-scope operation has a
fatal path at all. -/

theorem C2_fatal_contract_check :
    (∀ (h : HookFs) (name : String) (mode : Nat) (mk : HookOnMkdir),
      Hook.asMkdir h.hook = some mk → (mk.PreMkdir name mode).1 = true →
      ((mk.PreMkdir name mode).2.2 = none →
        HookFs.Mkdir h name mode = (.fatal, [.preCall])) ∧
      (∀ e, (mk.PreMkdir name mode).2.2 = some e →
        HookFs.Mkdir h name mode = (.normal (ToStatus (some e)), [.preCall]))) ∧
    (∀ (h : HookFs) (name : String) (rd : HookOnRmdir),
      Hook.asRmdir h.hook = some rd → (rd.PreRmdir name).1 = true →
      ((rd.PreRmdir name).2.2 = none →
        HookFs.Rmdir h name = (.fatal, [.preCall])) ∧
      (∀ e, (rd.PreRmdir name).2.2 = some e →
        HookFs.Rmdir h name = (.normal (ToStatus (some e)), [.preCall]))) ∧
    (∀ (h : HookFs) (name : String) (flags : Nat) (op : HookOnOpen),
      Hook.asOpen h.hook = some op → (op.PreOpen name flags).1 = true →
      ((op.PreOpen name flags).2.2 = none →
        HookFs.Open h name flags = (.fatal, [.preCall])) ∧
      (∀ e, (op.PreOpen name flags).2.2 = some e →
        HookFs.Open h name flags =
          (.normal (none, ToStatus (some e)), [.preCall]))) ∧
    (∀ (h : HookFs) (name : String) (od : HookOnOpenDir),
      Hook.asOpenDir h.hook = some od → (od.PreOpenDir name).1 = true →
      ((od.PreOpenDir name).2.2 = none →
        HookFs.OpenDir h name = (.fatal, [.preCall])) ∧
      (∀ e, (od.PreOpenDir name).2.2 = some e →
        HookFs.OpenDir h name =
          (.normal (none, ToStatus (some e)), [.preCall]))) ∧
    (∀ (h : HookFs) (name : String),
      (HookFs.GetAttr h name).1 ≠ Outcome.fatal) ∧
    (∀ (h : HookFs) (name : String) (mode : Nat),
      (HookFs.Chmod h name mode).1 ≠ Outcome.fatal) ∧
    (∀ (h : HookFs) (name : String),
      (HookFs.Unlink h name).1 ≠ Outcome.fatal) ∧
    (∀ (h : HookFs) (name attr : String),
      (HookFs.GetXAttr h name attr).1 ≠ Outcome.fatal) ∧
    (∀ (h : HookFs) (name : String),
      (HookFs.ListXAttr h name).1 ≠ Outcome.fatal) ∧
    (∀ (h : HookFs) (name : String),
      (HookFs.Readlink h name).1 ≠ Outcome.fatal) := by
  refine ⟨?_, ?_, ?_, ?_, ?_, ?_, ?_, ?_, ?_, ?_⟩
  · intro h name mode mk hmk hpre
    unfold HookFs.Mkdir
    rw [hmk]
    exact ⟨fun hnil => by simp [hpre, hnil],
           fun e hsome => by simp [hpre, hsome]⟩
  · intro h name rd hrd hpre
    unfold HookFs.Rmdir
    rw [hrd]
    exact ⟨fun hnil => by simp [hpre, hnil],
           fun e hsome => by simp [hpre, hsome]⟩
  · intro h name flags op hop hpre
    unfold HookFs.Open
    rw [hop]
    exact ⟨fun hnil => by simp [hpre, hnil],
           fun e hsome => by simp [hpre, hsome]⟩
  · intro h name od hod hpre
    unfold HookFs.OpenDir
    rw [hod]
    exact ⟨fun hnil => by simp [hpre, hnil],
           fun e hsome => by simp [hpre, hsome]⟩
  · intro h name
    unfold HookFs.GetAttr
    cases hga : Hook.asGetAttr h.hook with
    | none => simp
    | some hook =>
        by_cases hp : (hook.PreGetAttr name).1 = true
        · simp [hp]
        · by_cases hq :
            (hook.PostGetAttr (h.fs.GetAttr name).2 (hook.PreGetAttr name).2.1).1 = true <;>
            simp [hp, hq]
  · intro h name mode
    unfold HookFs.Chmod
    cases hch : Hook.asChmod h.hook with
    | none => simp
    | some hook =>
        by_cases hp : (hook.PreChmod name mode).1 = true
        · simp [hp]
        · by_cases hq :
            (hook.PostChmod (h.fs.Chmod name mode) (hook.PreChmod name mode).2.1).1 = true <;>
            simp [hp, hq]
  · intro h name
    unfold HookFs.Unlink
    cases hul : Hook.asUnlink h.hook with
    | none => simp
    | some hook =>
        by_cases hp : (hook.PreUnlink name).1 = true
        · simp [hp]
        · by_cases hq :
            (hook.PostUnlink (h.fs.Unlink name) (hook.PreUnlink name).2.1).1 = true <;>
            simp [hp, hq]
  · intro h name attr
    unfold HookFs.GetXAttr
    cases hgx : Hook.asGetXAttr h.hook with
    | none => simp
    | some hook =>
        by_cases hp : (hook.PreGetXAttr name attr).1 = true
        · simp [hp]
        · by_cases hq :
            (hook.PostGetXAttr (h.fs.GetXAttr name attr).2
              (hook.PreGetXAttr name attr).2.1).1 = true <;>
            simp [hp, hq]
  · intro h name
    unfold HookFs.ListXAttr
    cases hlx : Hook.asListXAttr h.hook with
    | none => simp
    | some hook =>
        by_cases hp : (hook.PreListXAttr name).1 = true
        · simp [hp]
        · by_cases hq :
            (hook.PostListXAttr (h.fs.ListXAttr name).2
              (hook.PreListXAttr name).2.1).1 = true <;>
            simp [hp, hq]
  · intro h name
    unfold HookFs.Readlink
    cases hrl : Hook.asReadlink h.hook with
    | none => simp
    | some hook =>
        by_cases hp : (hook.PreReadlink name).1 = true
        · simp [hp]
        · by_cases hq :
            (hook.PostReadlink (h.fs.Readlink name).2
              (hook.PreReadlink name).2.1).1 = true <;>
            simp [hp, hq]

/-- C2 witness: under `preNilHook` the four operations hit the fatal path;
under `preErrHook` (error 13) they return status 13 normally; and GetAttr
never returns the fatal outcome. -/

theorem C2_witness :
    HookFs.Mkdir hfsPreNil "x" 7 = (.fatal, [.preCall]) ∧
    HookFs.Rmdir hfsPreNil "x" = (.fatal, [.preCall]) ∧
    HookFs.Open hfsPreNil "x" 7 = (.fatal, [.preCall]) ∧
    HookFs.OpenDir hfsPreNil "x" = (.fatal, [.preCall]) ∧
    HookFs.Mkdir hfsPreErr "x" 7 = (.normal 13, [.preCall]) ∧
    HookFs.Rmdir hfsPreErr "x" = (.normal 13, [.preCall]) ∧
    HookFs.Open hfsPreErr "x" 7 = (.normal (none, 13), [.preCall]) ∧
    HookFs.OpenDir hfsPreErr "x" = (.normal (none, 13), [.preCall]) ∧
    (HookFs.GetAttr hfsPreErr "x").1 ≠ Outcome.fatal :=
  ⟨(C2_fatal_contract_check.1 hfsPreNil "x" 7 _ rfl rfl).1 rfl,
   (C2_fatal_contract_check.2.1 hfsPreNil "x" _ rfl rfl).1 rfl,
   (C2_fatal_contract_check.2.2.1 hfsPreNil "x" 7 _ rfl rfl).1 rfl,
   (C2_fatal_contract_check.2.2.2.1 hfsPreNil "x" _ rfl rfl).1 rfl,
   (C2_fatal_contract_check.1 hfsPreErr "x" 7 _ rfl rfl).2 13 rfl,
   (C2_fatal_contract_check.2.1 hfsPreErr "x" _ rfl rfl).2 13 rfl,
   (C2_fatal_contract_check.2.2.1 hfsPreErr "x" 7 _ rfl rfl).2 13 rfl,
   (C2_fatal_contract_check.2.2.2.1 hfsPreErr "x" _ rfl rfl).2 13 rfl,
   C2_fatal_contract_check.2.2.2.2.1 hfsPreErr "x"⟩

/-- C4: when the installed hook does not implement an operation's pair
(including a hook implementing nothing, or no hook at all), the operation
returns exactly the delegate's result and status, and neither the prehook
nor the posthook is invoked (the trace is only the delegate call). -/

theorem C4_passthrough_invariance :
    (∀ (h : HookFs) (name : String), Hook.asGetAttr h.hook = none →
      HookFs.GetAttr h name = (.normal (h.fs.GetAttr name), [.delegateCall])) ∧
    (∀ (h : HookFs) (name : String) (mode : Nat), Hook.asChmod h.hook = none →
      HookFs.Chmod h name mode = (.normal (h.fs.Chmod name mode), [.delegateCall])) ∧
    (∀ (h : HookFs) (name : String), Hook.asUnlink h.hook = none →
      HookFs.Unlink h name = (.normal (h.fs.Unlink name), [.delegateCall])) ∧
    (∀ (h : HookFs) (name attr : String), Hook.asGetXAttr h.hook = none →
      HookFs.GetXAttr h name attr =
        (.normal (h.fs.GetXAttr name attr), [.delegateCall])) ∧
    (∀ (h : HookFs) (name : String), Hook.asListXAttr h.hook = none →
      HookFs.ListXAttr h name = (.normal (h.fs.ListXAttr name), [.delegateCall])) ∧
    (∀ (h : HookFs) (name : String), Hook.asReadlink h.hook = none →
      HookFs.Readlink h name = (.normal (h.fs.Readlink name), [.delegateCall])) ∧
    (∀ (h : HookFs) (name : String) (mode : Nat), Hook.asMkdir h.hook = none →
      HookFs.Mkdir h name mode = (.normal (h.fs.Mkdir name mode), [.delegateCall])) ∧
    (∀ (h : HookFs) (name : String), Hook.asRmdir h.hook = none →
      HookFs.Rmdir h name = (.normal (h.fs.Rmdir name), [.delegateCall])) ∧
    (∀ (h : HookFs) (name : String), Hook.asOpenDir h.hook = none →
      HookFs.OpenDir h name = (.normal (h.fs.OpenDir name), [.delegateCall])) ∧
    (∀ (h : HookFs) (name : String) (flags : Nat), Hook.asOpen h.hook = none →
      HookFs.Open h name flags =
        (.normal (some (newHookFile (h.fs.Open name flags).1 name h.hook),
          (h.fs.Open name flags).2), [.delegateCall])) ∧
    (∀ (h : hookFile) (dest : List Nat) (off : Int), Hook.asRead h.hook = none →
      hookFile.Read h dest off = (h.file.Read dest off, [.delegateCall])) ∧
    (∀ (h : hookFile) (data : List Nat) (off : Int), Hook.asWrite h.hook = none →
      hookFile.Write h data off = (h.file.Write data off, [.delegateCall])) ∧
    (∀ (h : hookFile), Hook.asRelease h.hook = none →
      hookFile.Release h = [.delegateCall]) := by
  refine ⟨?_, ?_, ?_, ?_, ?_, ?_, ?_, ?_, ?_, ?_, ?_, ?_, ?_⟩ <;>
    intro h
  · intro name hno
    unfold HookFs.GetAttr
    rw [hno]
  · intro name mode hno
    unfold HookFs.Chmod
    rw [hno]
  · intro name hno
    unfold HookFs.Unlink
    rw [hno]
  · intro name attr hno
    unfold HookFs.GetXAttr
    rw [hno]
  · intro name hno
    unfold HookFs.ListXAttr
    rw [hno]
  · intro name hno
    unfold HookFs.Readlink
    rw [hno]
  · intro name mode hno
    unfold HookFs.Mkdir
    rw [hno]
  · intro name hno
    unfold HookFs.Rmdir
    rw [hno]
  · intro name hno
    unfold HookFs.OpenDir
    rw [hno]
  · intro name flags hno
    unfold HookFs.Open
    rw [hno]
  · intro dest off hno
    unfold hookFile.Read
    rw [hno]
  · intro data off hno
    unfold hookFile.Write
    rw [hno]
  · intro hno
    unfold hookFile.Release
    rw [hno]

/-- C4 witness: with no hook and with an empty hook, all operations return
the delegate values of `sampleFS` with a delegate-only trace. -/

theorem C4_witness :
    HookFs.GetAttr hfsNoHook "x" = (.normal (some 7, 2), [.delegateCall]) ∧
    HookFs.GetAttr hfsEmptyHook "x" = (.normal (some 7, 2), [.delegateCall]) ∧
    HookFs.Chmod hfsEmptyHook "x" 7 = (.normal 13, [.delegateCall]) ∧
    HookFs.Unlink hfsEmptyHook "x" = (.normal 5, [.delegateCall]) ∧
    HookFs.GetXAttr hfsEmptyHook "x" "a" =
      (.normal (some [1, 2], OK), [.delegateCall]) ∧
    HookFs.ListXAttr hfsEmptyHook "x" =
      (.normal (some ["u"], OK), [.delegateCall]) ∧
    HookFs.Readlink hfsEmptyHook "x" = (.normal ("t", OK), [.delegateCall]) ∧
    HookFs.Mkdir hfsEmptyHook "x" 7 = (.normal OK, [.delegateCall]) ∧
    HookFs.Rmdir hfsEmptyHook "x" = (.normal OK, [.delegateCall]) ∧
    HookFs.OpenDir hfsEmptyHook "x" =
      (.normal (some ["d"], OK), [.delegateCall]) ∧
    HookFs.Open hfsEmptyHook "x" 7 =
      (.normal (some (newHookFile sampleFile "x" (some {})), OK),
        [.delegateCall]) ∧
    hookFile.Read hfileNoHook [0, 0, 0] 0 = (([10, 20, 30], OK), [.delegateCall]) ∧
    hookFile.Write hfileNoHook [1, 2] 0 = ((2, OK), [.delegateCall]) ∧
    hookFile.Release hfileNoHook = [.delegateCall] :=
  ⟨C4_passthrough_invariance.1 hfsNoHook "x" rfl,
   C4_passthrough_invariance.1 hfsEmptyHook "x" rfl,
   C4_passthrough_invariance.2.1 hfsEmptyHook "x" 7 rfl,
   C4_passthrough_invariance.2.2.1 hfsEmptyHook "x" rfl,
   C4_passthrough_invariance.2.2.2.1 hfsEmptyHook "x" "a" rfl,
   C4_passthrough_invariance.2.2.2.2.1 hfsEmptyHook "x" rfl,
   C4_passthrough_invariance.2.2.2.2.2.1 hfsEmptyHook "x" rfl,
   C4_passthrough_invariance.2.2.2.2.2.2.1 hfsEmptyHook "x" 7 rfl,
   C4_passthrough_invariance.2.2.2.2.2.2.2.1 hfsEmptyHook "x" rfl,
   C4_passthrough_invariance.2.2.2.2.2.2.2.2.1 hfsEmptyHook "x" rfl,
   C4_passthrough_invariance.2.2.2.2.2.2.2.2.2.1 hfsEmptyHook "x" 7 rfl,
   C4_passthrough_invariance.2.2.2.2.2.2.2.2.2.2.1 hfileNoHook [0, 0, 0] 0 rfl,
   C4_passthrough_invariance.2.2.2.2.2.2.2.2.2.2.2.1 hfileNoHook [1, 2] 0 rfl,
   C4_passthrough_invariance.2.2.2.2.2.2.2.2.2.2.2.2 hfileNoHook rfl⟩

/-- C5: a hook initializer that fails at mount time does not fail the
mount (OnMount returns normally) and permanently disables the hook: the
mounted state has hook nil, and every modelled filesystem-scope operation
on it is pure delegate passthrough. -/

theorem C5_lifecycle_degrade
    (h : HookFs) (hi : HookWithInit)
    (hInit : Hook.asInit h.hook = some hi) (hfail : hi.Init ≠ none) :
    HookFs.OnMount h = ({ h with hook := none }, [.delegateCall, .initCall]) ∧
    ((HookFs.OnMount h).1).hook = none ∧
    (∀ name, HookFs.GetAttr (HookFs.OnMount h).1 name =
      (.normal (h.fs.GetAttr name), [.delegateCall])) ∧
    (∀ name mode, HookFs.Chmod (HookFs.OnMount h).1 name mode =
      (.normal (h.fs.Chmod name mode), [.delegateCall])) ∧
    (∀ name, HookFs.Unlink (HookFs.OnMount h).1 name =
      (.normal (h.fs.Unlink name), [.delegateCall])) ∧
    (∀ name attr, HookFs.GetXAttr (HookFs.OnMount h).1 name attr =
      (.normal (h.fs.GetXAttr name attr), [.delegateCall])) ∧
    (∀ name, HookFs.ListXAttr (HookFs.OnMount h).1 name =
      (.normal (h.fs.ListXAttr name), [.delegateCall])) ∧
    (∀ name, HookFs.Readlink (HookFs.OnMount h).1 name =
      (.normal (h.fs.Readlink name), [.delegateCall])) ∧
    (∀ name mode, HookFs.Mkdir (HookFs.OnMount h).1 name mode =
      (.normal (h.fs.Mkdir name mode), [.delegateCall])) ∧
    (∀ name, HookFs.Rmdir (HookFs.OnMount h).1 name =
      (.normal (h.fs.Rmdir name), [.delegateCall])) ∧
    (∀ name, HookFs.OpenDir (HookFs.OnMount h).1 name =
      (.normal (h.fs.OpenDir name), [.delegateCall])) ∧
    (∀ name flags, HookFs.Open (HookFs.OnMount h).1 name flags =
      (.normal (some (newHookFile (h.fs.Open name flags).1 name none),
        (h.fs.Open name flags).2), [.delegateCall])) := by
  have hm : HookFs.OnMount h = ({ h with hook := none }, [.delegateCall, .initCall]) := by
    unfold HookFs.OnMount
    rw [hInit]
    simp [hfail]
  refine ⟨hm, ?_, ?_, ?_, ?_, ?_, ?_, ?_, ?_, ?_, ?_, ?_⟩ <;> rw [hm]
  · intro name
    rfl
  · intro name mode
    rfl
  · intro name
    rfl
  · intro name attr
    rfl
  · intro name
    rfl
  · intro name
    rfl
  · intro name mode
    rfl
  · intro name
    rfl
  · intro name
    rfl
  · intro name flags
    rfl

/-- C5 witness: mounting `hfsFailInit` (initializer error 9) yields a
hook-nil mount, and GetAttr — short-circuited with error 13 before the
mount — is pure passthrough afterwards. -/

theorem C5_witness :
    HookFs.OnMount hfsFailInit =
      ({ hfsFailInit with hook := none }, [.delegateCall, .initCall]) ∧
    ((HookFs.OnMount hfsFailInit).1).hook = none ∧
    HookFs.GetAttr (HookFs.OnMount hfsFailInit).1 "x" =
      (.normal (some 7, 2), [.delegateCall]) :=
  ⟨(C5_lifecycle_degrade hfsFailInit ⟨some 9⟩ rfl (by decide)).1,
   (C5_lifecycle_degrade hfsFailInit ⟨some 9⟩ rfl (by decide)).2.1,
   (C5_lifecycle_degrade hfsFailInit ⟨some 9⟩ rfl (by decide)).2.2.1 "x"⟩

/-- Any file handle produced by a normal return of Open carries the
mount's hook value captured at open time. -/

lemma Open_hook_snapshot (h : HookFs) (name : String) (flags : Nat)
    (f : hookFile) (st : Status) (tr : List Event)
    (hEq : HookFs.Open h name flags = (.normal (some f, st), tr)) :
    f.hook = h.hook := by
  unfold HookFs.Open at hEq
  cases hop : Hook.asOpen h.hook <;> rw [hop] at hEq
  case none =>
    simp only [Prod.mk.injEq, Outcome.normal.injEq, Option.some.injEq] at hEq
    obtain ⟨⟨hf, _⟩, _⟩ := hEq
    rw [← hf]
    rfl
  case some op =>
    by_cases hp : (op.PreOpen name flags).1 = true
    · by_cases hn : (op.PreOpen name flags).2.2 = none
      · simp [hp, hn] at hEq
      · simp [hp, hn] at hEq
    · by_cases hq :
        (op.PostOpen (h.fs.Open name flags).2 (op.PreOpen name flags).2.1).1 = true <;>
      · simp [hp, hq] at hEq
        obtain ⟨⟨hf, _⟩, _⟩ := hEq
        rw [← hf]
        rfl

/-- C6: newHookFile captures the hook reference by value; every handle
returned by Open carries the mount's hook at open time; and that snapshot
is unaffected when a failing initializer later disables the
filesystem-level hook (the mount's hook becomes nil while the handle's
stays what it was). -/

theorem C6_handle_hook_snapshot :
    (∀ (file : DelegateFile) (name : String) (hook : Hook),
      (newHookFile file name hook).hook = hook) ∧
    (∀ (h : HookFs) (name : String) (flags : Nat) (f : hookFile)
      (st : Status) (tr : List Event),
      HookFs.Open h name flags = (.normal (some f, st), tr) →
      f.hook = h.hook) ∧
    (∀ (h : HookFs) (hi : HookWithInit) (name : String) (flags : Nat)
      (f : hookFile) (st : Status) (tr : List Event),
      Hook.asInit h.hook = some hi → hi.Init ≠ none →
      HookFs.Open h name flags = (.normal (some f, st), tr) →
      f.hook = h.hook ∧ ((HookFs.OnMount h).1).hook = none) := by
  refine ⟨fun _ _ _ => rfl, Open_hook_snapshot, ?_⟩
  intro h hi name flags f st tr hInit hfail hEq
  refine ⟨Open_hook_snapshot h name flags f st tr hEq, ?_⟩
  unfold HookFs.OnMount
  rw [hInit]
  simp [hfail]

/-- C6 witness: opening "x" on `hfsSnapshot` yields a handle holding
`some snapshotHook`, while mounting (whose initializer fails with error 9)
leaves the filesystem-level hook nil. -/

theorem C6_witness :
    (newHookFile sampleFile "x" (some snapshotHook)).hook = some snapshotHook ∧
    ((HookFs.OnMount hfsSnapshot).1).hook = none :=
  ⟨(C6_handle_hook_snapshot.2.2 hfsSnapshot ⟨some 9⟩ "x" 7
      (newHookFile sampleFile "x" (some snapshotHook)) OK
      [.preCall, .delegateCall, .postCall] rfl (by decide) rfl).1,
   (C6_handle_hook_snapshot.2.2 hfsSnapshot ⟨some 9⟩ "x" 7
      (newHookFile sampleFile "x" (some snapshotHook)) OK
      [.preCall, .delegateCall, .postCall] rfl (by decide) rfl).2⟩

/-- C9: when PostRead replaces the delegate's bytes with a buffer of a
different length, the engine still returns the replacement with the status
derived from the posthook error, emitting only the non-fatal warning
event. -/

theorem C9_read_length_mismatch_tolerated
    (h : hookFile) (dest : List Nat) (off : Int) (rh : HookOnRead)
    (buf : List Nat) (err : GoError)
    (hrh : Hook.asRead h.hook = some rh)
    (hpre : (rh.PreRead h.name (dest.length : Int) off).2.1 = false)
    (hpost : rh.PostRead (h.file.Read dest off).2 (h.file.Read dest off).1
        (rh.PreRead h.name (dest.length : Int) off).2.2.1 = (buf, true, err))
    (hlen : buf.length ≠ (h.file.Read dest off).1.length) :
    hookFile.Read h dest off =
      ((buf, ToStatus err), [.preCall, .delegateCall, .postCall, .warn]) := by
  unfold hookFile.Read
  rw [hrh]
  simp [hpre, hpost, hlen]

/-- C9 witness: the delegate produces [10, 20, 30] but the posthook's
one-byte replacement is returned with status 4 and the warning event. -/

theorem C9_witness :
    hookFile.Read hfileMismatch [0, 0, 0] 0 =
      (([1], 4), [.preCall, .delegateCall, .postCall, .warn]) :=
  C9_read_length_mismatch_tolerated hfileMismatch [0, 0, 0] 0 _ [1] (some 4)
    rfl rfl rfl (by decide)

/-- C3 counterexample: for GetAttr the posthook (hooked = true) has no
result output, and the engine returns the delegate's attr alongside the
hook-derived status: two mounts differing only in the delegate's attr
(7 versus 8, both with delegate status 2) return those very attrs through
one identical replacing posthook, so the delegate's original result is not
discarded — only its status is. -/

theorem C3_counterexample :
    HookFs.GetAttr hfsAttrSeven "x" =
      (.normal (some 7, OK), [.preCall, .delegateCall, .postCall]) ∧
    HookFs.GetAttr hfsAttrEight "x" =
      (.normal (some 8, OK), [.preCall, .delegateCall, .postCall]) :=
  ⟨rfl, rfl⟩

/-- C3 amended: when the posthook returns hooked = true, the status
returned to the caller is exactly the status derived from the posthook's
error (the delegate's status is discarded); the result is fully substituted
by the hook's buffer only for read, while getattr keeps the delegate's
result and write returns the synthetic count zero. -/

theorem C3_replacement_amended :
    (∀ (h : HookFs) (name : String) (ga : HookOnGetAttr),
      Hook.asGetAttr h.hook = some ga → (ga.PreGetAttr name).1 = false →
      (ga.PostGetAttr (h.fs.GetAttr name).2 (ga.PreGetAttr name).2.1).1 = true →
      HookFs.GetAttr h name =
        (.normal ((h.fs.GetAttr name).1,
          ToStatus (ga.PostGetAttr (h.fs.GetAttr name).2 (ga.PreGetAttr name).2.1).2),
         [.preCall, .delegateCall, .postCall])) ∧
    (∀ (h : HookFs) (name : String) (mode : Nat) (ch : HookOnChmod),
      Hook.asChmod h.hook = some ch → (ch.PreChmod name mode).1 = false →
      (ch.PostChmod (h.fs.Chmod name mode) (ch.PreChmod name mode).2.1).1 = true →
      HookFs.Chmod h name mode =
        (.normal
          (ToStatus (ch.PostChmod (h.fs.Chmod name mode) (ch.PreChmod name mode).2.1).2),
         [.preCall, .delegateCall, .postCall])) ∧
    (∀ (h : hookFile) (dest : List Nat) (off : Int) (rh : HookOnRead)
      (buf : List Nat) (err : GoError),
      Hook.asRead h.hook = some rh →
      (rh.PreRead h.name (dest.length : Int) off).2.1 = false →
      rh.PostRead (h.file.Read dest off).2 (h.file.Read dest off).1
        (rh.PreRead h.name (dest.length : Int) off).2.2.1 = (buf, true, err) →
      (hookFile.Read h dest off).1 = (buf, ToStatus err)) ∧
    (∀ (h : hookFile) (data : List Nat) (off : Int) (wh : HookOnWrite),
      Hook.asWrite h.hook = some wh → (wh.PreWrite h.name data off).1 = false →
      (wh.PostWrite (h.file.Write data off).2 (wh.PreWrite h.name data off).2.1).1 = true →
      hookFile.Write h data off =
        ((0, ToStatus
            (wh.PostWrite (h.file.Write data off).2 (wh.PreWrite h.name data off).2.1).2),
         [.preCall, .delegateCall, .postCall])) := by
  refine ⟨?_, ?_, ?_, ?_⟩
  · intro h name ga hga hpre hpost
    unfold HookFs.GetAttr
    rw [hga]
    simp [hpre, hpost]
  · intro h name mode ch hch hpre hpost
    unfold HookFs.Chmod
    rw [hch]
    simp [hpre, hpost]
  · intro h dest off rh buf err hrh hpre hpost
    unfold hookFile.Read
    rw [hrh]
    by_cases hlen : buf.length = (h.file.Read dest off).1.length <;>
      simp [hpre, hpost, hlen]
  · intro h data off wh hwh hpre hpost
    unfold hookFile.Write
    rw [hwh]
    simp [hpre, hpost]

/-- C3 amended witness: under `postErrHook` the posthook status 21 replaces
the delegate statuses, GetAttr keeps the delegate attr 7, read returns the
replacement [5], and write returns count zero. -/

theorem C3_amended_witness :
    HookFs.GetAttr hfsPostErr "x" =
      (.normal (some 7, 21), [.preCall, .delegateCall, .postCall]) ∧
    HookFs.Chmod hfsPostErr "x" 7 =
      (.normal 21, [.preCall, .delegateCall, .postCall]) ∧
    (hookFile.Read hfilePostErr [0, 0, 0] 0).1 = ([5], 21) ∧
    hookFile.Write hfilePostErr [1, 2] 0 =
      ((0, 21), [.preCall, .delegateCall, .postCall]) :=
  ⟨C3_replacement_amended.1 hfsPostErr "x" _ rfl rfl rfl,
   C3_replacement_amended.2.1 hfsPostErr "x" 7 _ rfl rfl rfl,
   C3_replacement_amended.2.2.1 hfilePostErr [0, 0, 0] 0 _ [5] (some 21)
     rfl rfl rfl,
   C3_replacement_amended.2.2.2 hfilePostErr [1, 2] 0 _ rfl rfl rfl⟩

/-- C8: the delegate release is performed exactly once per Release call,
for every handle and hook: the PreRelease/PostRelease flags never suppress
or repeat it. -/

theorem C8_release_delegate_exactly_once (h : hookFile) :
    (hookFile.Release h).count .delegateCall = 1 := by
  unfold hookFile.Release
  cases hr : Hook.asRelease h.hook <;> simp [List.count]

end Hookfs
